import Mathlib

/-!
Automation Readiness Score — verification development

Shallow embedding of the scoring engine of `app.js` (the pure part of the
Automation Readiness Score calculator): subscore normalization including the
logarithmic volume transform, weighted aggregation with `Math.round`, band
selection, and blocker ranking.  JavaScript numbers are modelled as real
numbers; `Math.log10` is `Real.logb 10`; `Math.round x` is `⌊x + 1/2⌋`
(round half toward +∞, which on the non-negative scores produced here is
round-half-up).  `Array.prototype.sort` with the comparator
`(a, b) => b.gap - a.gap` is a stable descending sort by `gap`, modelled by
`List.insertionSort` with the relation `gapGE a b := b.gap ≤ a.gap`
(stable sorts agree on any consistent comparator, so this is the same list).
-/

namespace ARS

noncomputable section

/-- The `Inputs` record of `app.js` (six numeric fields). -/
structure Inputs where
  processVolume : ℝ
  variance : ℝ
  exceptionRate : ℝ
  dataQuality : ℝ
  systemAccess : ℝ
  complianceSensitivity : ℝ

/-- Clamp helper from `app.js`: `Math.max(min, Math.min(max, value))`. -/
def clamp (value mn mx : ℝ) : ℝ := max mn (min mx value)

/-- Log-scale volume subscore, `volumeSubscore` in `app.js`. -/
def volumeSubscore (processVolume : ℝ) : ℝ :=
  if processVolume ≤ 0 then 0
  else clamp (Real.logb 10 (processVolume + 1) * 31.5) 0 95

/-- The shape of the `WEIGHTS` constant object. -/
structure Weights where
  stableProcess : ℝ
  lowExceptions : ℝ
  dataQuality : ℝ
  systemAccess : ℝ
  lowComplianceRisk : ℝ
  volumePotential : ℝ

/-- The `WEIGHTS` constant of `app.js`. -/
def WEIGHTS : Weights where
  stableProcess := 0.2
  lowExceptions := 0.2
  dataQuality := 0.2
  systemAccess := 0.15
  lowComplianceRisk := 0.15
  volumePotential := 0.1

/-- One entry of the `BLOCKER_HINTS` table. -/
structure HintEntry where
  reason : String
  hintText : String

/-- The `BLOCKER_HINTS` constant of `app.js`, as a lookup by factor key. -/
def BLOCKER_HINTS (key : String) : HintEntry :=
  if key = "stableProcess" then
    ⟨"High Process Variance",
     "Standardize steps, document SOPs, and reduce branching or edge cases."⟩
  else if key = "lowExceptions" then
    ⟨"High Exception Rate",
     "Perform root-cause analysis on exceptions, add decision tables, or redesign inputs."⟩
  else if key = "dataQuality" then
    ⟨"Low Data Quality",
     "Add validation, enrichment layers, define golden records, or implement MDM."⟩
  else if key = "systemAccess" then
    ⟨"Low System Access",
     "Expose APIs, create service accounts, remove MFA for service principals, or use RPA as a last resort."⟩
  else if key = "lowComplianceRisk" then
    ⟨"High Compliance Sensitivity",
     "Minimize data usage, pseudonymize PII, add Human-in-the-Loop (HITL) checks, and enhance audit logging."⟩
  else if key = "volumePotential" then
    ⟨"Low Volume / Payoff",
     "A pilot is still possible. Consider combining adjacent processes to reach scale."⟩
  else ⟨"", ""⟩

/-- The `subscores` object built at the top of `calculateReadiness`. -/
structure Subscores where
  stableProcess : ℝ
  lowExceptions : ℝ
  dataQuality : ℝ
  systemAccess : ℝ
  lowComplianceRisk : ℝ
  volumePotential : ℝ

/-- The six subscore expressions of `calculateReadiness` (`app.js`, lines 235-242). -/
def mkSubscores (inputs : Inputs) : Subscores where
  stableProcess := 100 - inputs.variance
  lowExceptions := 100 - inputs.exceptionRate
  dataQuality := inputs.dataQuality
  systemAccess := inputs.systemAccess
  lowComplianceRisk := 100 - inputs.complianceSensitivity
  volumePotential := volumeSubscore inputs.processVolume

/-- Key/value pairs of the subscores object in insertion order, as `Object.entries` yields them. -/
def Subscores.entries (s : Subscores) : List (String × ℝ) :=
  [("stableProcess", s.stableProcess),
   ("lowExceptions", s.lowExceptions),
   ("dataQuality", s.dataQuality),
   ("systemAccess", s.systemAccess),
   ("lowComplianceRisk", s.lowComplianceRisk),
   ("volumePotential", s.volumePotential)]

/-- JavaScript `Math.round`: round half toward positive infinity. -/
def jsRound (x : ℝ) : ℤ := ⌊x + 1/2⌋

/-- The `Blocker` record of `app.js`. -/
structure Blocker where
  factor : String
  reason : String
  hintText : String
  gap : ℝ
  subscore : ℝ

/-- The `Output` record of `app.js`. -/
structure Output where
  readinessScore : ℤ
  band : String
  topBlockers : List Blocker
  narrative : String

/-- The comparator `(a, b) => b.gap - a.gap` of `app.js` induces the total
preorder "gap at least as large"; the stable sort orders by it. -/
def gapGE (a b : Blocker) : Prop := b.gap ≤ a.gap

instance : DecidableRel gapGE := fun a b => Real.decidableLE b.gap a.gap

/-- Gap threshold constant `MIN_GAP_THRESHOLD` from `calculateReadiness`. -/
def MIN_GAP_THRESHOLD : ℝ := 15

/-- The `allBlockers` array of `calculateReadiness` (`app.js`, lines 272-282):
map each subscore entry to a blocker record with its gap. -/
def allBlockers (inputs : Inputs) : List Blocker :=
  (mkSubscores inputs).entries.map fun kv =>
    let maxScore : ℝ := if kv.1 = "volumePotential" then 95 else 100
    { factor := kv.1
      reason := (BLOCKER_HINTS kv.1).reason
      hintText := (BLOCKER_HINTS kv.1).hintText
      gap := maxScore - kv.2
      subscore := kv.2 }

/-- Narrative for the Green band (`app.js`, line 262). -/
def narrativeGreen : String :=
  "This process is a strong candidate for automation. Proceed with detailed analysis."

/-- Narrative for the Yellow band (`app.js`, line 266). -/
def narrativeYellow : String :=
  "This process shows potential but has clear blockers. Address top issues to improve readiness."

/-- Narrative for the Red band (`app.js`, line 257). -/
def narrativeRed : String :=
  "This process has significant blockers. Focus on fundamentals before automating."

/-- Core scoring function `calculateReadiness` from `app.js`: weighted score, `Math.round`, band
selection, and the blocker pipeline (filter strictly above the threshold,
stable sort by gap descending, take the first 4). -/
def calculateReadiness (inputs : Inputs) : Output :=
  let subscores := mkSubscores inputs
  let score :=
    subscores.stableProcess * WEIGHTS.stableProcess +
    subscores.lowExceptions * WEIGHTS.lowExceptions +
    subscores.dataQuality * WEIGHTS.dataQuality +
    subscores.systemAccess * WEIGHTS.systemAccess +
    subscores.lowComplianceRisk * WEIGHTS.lowComplianceRisk +
    subscores.volumePotential * WEIGHTS.volumePotential
  let readinessScore := jsRound score
  let bandNarrative : String × String :=
    if 75 ≤ readinessScore then ("Green", narrativeGreen)
    else if 50 ≤ readinessScore then ("Yellow", narrativeYellow)
    else ("Red", narrativeRed)
  let topBlockers :=
    (((allBlockers inputs).filter fun b =>
        decide (MIN_GAP_THRESHOLD < b.gap)).insertionSort gapGE).take 4
  { readinessScore := readinessScore
    band := bandNarrative.1
    topBlockers := topBlockers
    narrative := bandNarrative.2 }

/-! Spec-side definitions.

The following definitions transcribe the specification's wording (weighted
aggregation with round-half-up, fixed band thresholds, and the blocker
pipeline described factor by factor).  They exist only to be compared with
the embedding of the code above. -/

/-- Round to the nearest integer with halves rounded up, as the spec words it. -/
def roundHalfUp (x : ℝ) : ℤ := ⌊x + 1/2⌋

/-- Spec-side subscore of a factor, per the spec's subscore table. -/
def specSubscore (i : Inputs) (f : String) : ℝ :=
  if f = "stableProcess" then 100 - i.variance
  else if f = "lowExceptions" then 100 - i.exceptionRate
  else if f = "dataQuality" then i.dataQuality
  else if f = "systemAccess" then i.systemAccess
  else if f = "lowComplianceRisk" then 100 - i.complianceSensitivity
  else if f = "volumePotential" then volumeSubscore i.processVolume
  else 0

/-- The six factor names, in their declared order. -/
def specFactors : List String :=
  ["stableProcess", "lowExceptions", "dataQuality", "systemAccess",
   "lowComplianceRisk", "volumePotential"]

/-- Spec-side weight of a factor. -/
def specWeight (f : String) : ℝ :=
  if f = "stableProcess" then 0.20
  else if f = "lowExceptions" then 0.20
  else if f = "dataQuality" then 0.20
  else if f = "systemAccess" then 0.15
  else if f = "lowComplianceRisk" then 0.15
  else if f = "volumePotential" then 0.10
  else 0

/-- Spec-side score: the six subscores multiplied by their weights, summed,
and rounded half-up. -/
def specScore (i : Inputs) : ℤ :=
  roundHalfUp ((specFactors.map fun f => specSubscore i f * specWeight f).sum)

/-- Spec-side maximum attainable subscore of a factor: 95 for
`volumePotential`, 100 for every other factor. -/
def specMaxSubscore (f : String) : ℝ :=
  if f = "volumePotential" then 95 else 100

/-- Spec-side gap of a factor: maximum attainable subscore minus subscore. -/
def specGap (i : Inputs) (f : String) : ℝ := specMaxSubscore f - specSubscore i f

/-- Spec-side blocker pipeline viewed as (factor, gap) pairs: for each of the
six factors compute its gap, keep those with gap strictly above 15, order by
gap descending (stably), truncate to the first 4. -/
def specTopBlockerView (i : Inputs) : List (String × ℝ) :=
  (((specFactors.map fun f => (f, specGap i f)).filter fun p =>
      decide ((15:ℝ) < p.2)).insertionSort fun a b => b.2 ≤ a.2).take 4

/-- Spec-side band and narrative as a function of the rounded score only:
score ≥ 75 gives Green, 50 ≤ score ≤ 74 gives Yellow, score ≤ 49 gives Red,
each with its single fixed narrative. -/
def specBandNarrative (score : ℤ) : String × String :=
  if 75 ≤ score then ("Green", narrativeGreen)
  else if 50 ≤ score then ("Yellow", narrativeYellow)
  else ("Red", narrativeRed)

/-- The documented input domain: volume non-negative, the other five fields
in [0, 100]. -/
def InDomain (i : Inputs) : Prop :=
  0 ≤ i.processVolume ∧
  0 ≤ i.variance ∧ i.variance ≤ 100 ∧
  0 ≤ i.exceptionRate ∧ i.exceptionRate ≤ 100 ∧
  0 ≤ i.dataQuality ∧ i.dataQuality ≤ 100 ∧
  0 ≤ i.systemAccess ∧ i.systemAccess ≤ 100 ∧
  0 ≤ i.complianceSensitivity ∧ i.complianceSensitivity ≤ 100

end

/-! Helper lemmas. -/

lemma log_ten_pos : 0 < Real.log 10 := Real.log_pos (by norm_num)

/-- Upper bound on a base-10 logarithm from a power comparison. -/
lemma logb_ten_le (x : ℝ) (p q : ℕ) (hq : 0 < q) (hx : 1 ≤ x)
    (h : x ^ q ≤ 10 ^ p) : Real.logb 10 x ≤ (p : ℝ) / q :=
  by
  have hx0 : (0:ℝ) < x := lt_of_lt_of_le one_pos hx
  have hlog : Real.log (x ^ q) ≤ Real.log ((10:ℝ) ^ p) :=
    (Real.log_le_log_iff (by positivity) (by positivity)).2 h
  rw [Real.log_pow, Real.log_pow] at hlog
  rw [Real.logb, div_le_div_iff₀ log_ten_pos (by exact_mod_cast hq)]
  linarith

/-- Lower bound on a base-10 logarithm from a power comparison. -/
lemma le_logb_ten (x : ℝ) (p q : ℕ) (hq : 0 < q) (hx : 0 < x)
    (h : (10:ℝ) ^ p ≤ x ^ q) : (p : ℝ) / q ≤ Real.logb 10 x :=
  by
  have hlog : Real.log ((10:ℝ) ^ p) ≤ Real.log (x ^ q) :=
    (Real.log_le_log_iff (by positivity) (by positivity)).2 h
  rw [Real.log_pow, Real.log_pow] at hlog
  rw [Real.logb, div_le_div_iff₀ (by exact_mod_cast hq) log_ten_pos]
  linarith

lemma clamp_nonneg (x : ℝ) : 0 ≤ clamp x 0 95 := le_max_left _ _

lemma clamp_le_95 (x : ℝ) : clamp x 0 95 ≤ 95 :=
  max_le (by norm_num) (min_le_left _ _)

lemma clamp_eq_of_le {x : ℝ} (h0 : 0 ≤ x) (h95 : x ≤ 95) : clamp x 0 95 = x :=
  by
  unfold clamp
  rw [min_eq_right h95, max_eq_right h0]

lemma clamp_eq_95_of_ge {x : ℝ} (h : 95 ≤ x) : clamp x 0 95 = 95 :=
  by
  unfold clamp
  rw [min_eq_left h, max_eq_right (by norm_num : (0:ℝ) ≤ 95)]

lemma clamp_mono {x y : ℝ} (h : x ≤ y) : clamp x 0 95 ≤ clamp y 0 95 :=
  max_le_max le_rfl (min_le_min le_rfl h)

lemma volumeSubscore_nonneg (v : ℝ) : 0 ≤ volumeSubscore v :=
  by
  unfold volumeSubscore
  split
  · exact le_rfl
  · exact clamp_nonneg _

lemma volumeSubscore_le_95 (v : ℝ) : volumeSubscore v ≤ 95 :=
  by
  unfold volumeSubscore
  split
  · norm_num
  · exact clamp_le_95 _

/-- Any volume of at least 10000 saturates the volume subscore at its cap. -/
lemma volumeSubscore_saturated {v : ℝ} (h : 10000 ≤ v) : volumeSubscore v = 95 :=
  by
  have hv : ¬ v ≤ 0 := by linarith
  unfold volumeSubscore
  rw [if_neg hv]
  have hlogb := le_logb_ten (v + 1) 4 1 one_pos (by linarith)
    (by rw [pow_one]; norm_num; linarith)
  norm_num at hlogb
  exact clamp_eq_95_of_ge (by nlinarith)

lemma volumeSubscore_hundred : |volumeSubscore 100 - 63| ≤ 1 :=
  by
  have hlo := le_logb_ten (101 : ℝ) 2 1 one_pos (by norm_num) (by norm_num)
  have hhi := logb_ten_le (101 : ℝ) 128 63 (by norm_num) (by norm_num) (by norm_num)
  norm_num at hlo hhi
  unfold volumeSubscore
  rw [if_neg (by norm_num : ¬ (100:ℝ) ≤ 0),
    (by norm_num : (100:ℝ) + 1 = 101)]
  rw [clamp_eq_of_le (by nlinarith) (by nlinarith)]
  rw [abs_le]
  constructor <;> nlinarith

lemma volumeSubscore_thousand : |volumeSubscore 1000 - 94.5| ≤ 1 :=
  by
  have hlo := le_logb_ten (1001 : ℝ) 3 1 one_pos (by norm_num) (by norm_num)
  norm_num at hlo
  unfold volumeSubscore
  rw [if_neg (by norm_num : ¬ (1000:ℝ) ≤ 0),
    (by norm_num : (1000:ℝ) + 1 = 1001)]
  have h1 : clamp (Real.logb 10 1001 * 31.5) 0 95 ≤ 95 := clamp_le_95 _
  have h2 : (94.5 : ℝ) ≤ clamp (Real.logb 10 1001 * 31.5) 0 95 :=
    by
    have : (94.5 : ℝ) = clamp 94.5 0 95 := by rw [clamp_eq_of_le] <;> norm_num
    rw [this]
    exact clamp_mono (by nlinarith)
  rw [abs_le]
  constructor <;> linarith

lemma volumeSubscore_mono : Monotone volumeSubscore :=
  by
  intro a b hab
  unfold volumeSubscore
  by_cases hb : b ≤ 0
  · rw [if_pos (le_trans hab hb), if_pos hb]
  · rw [if_neg hb]
    by_cases ha : a ≤ 0
    · rw [if_pos ha]
      exact clamp_nonneg _
    · rw [if_neg ha]
      push_neg at ha hb
      refine clamp_mono (mul_le_mul_of_nonneg_right ?_ (by norm_num))
      rw [Real.logb, Real.logb, div_le_div_iff_of_pos_right log_ten_pos]
      exact (Real.log_le_log_iff (by linarith) (by linarith)).2 (by linarith)

lemma jsRound_mono {x y : ℝ} (h : x ≤ y) : jsRound x ≤ jsRound y :=
  Int.floor_le_floor (by linarith)

lemma jsRound_nonneg {x : ℝ} (h : 0 ≤ x) : 0 ≤ jsRound x :=
  Int.le_floor.2 (by push_cast; linarith)

lemma jsRound_le_100 {x : ℝ} (h : x ≤ 99.5) : jsRound x ≤ 100 :=
  Int.le_of_lt_add_one (Int.floor_lt.2 (by push_cast; linarith))

/-- The score field of the output, unfolded to the weighted sum of the six
subscore expressions. -/
lemma readinessScore_eq (i : Inputs) :
    (calculateReadiness i).readinessScore =
      jsRound ((100 - i.variance) * 0.2 + (100 - i.exceptionRate) * 0.2 +
        i.dataQuality * 0.2 + i.systemAccess * 0.15 +
        (100 - i.complianceSensitivity) * 0.15 +
        volumeSubscore i.processVolume * 0.1) := rfl

/-- The blocker field of the output, unfolded to the filter/sort/take pipeline. -/
lemma topBlockers_eq (i : Inputs) :
    (calculateReadiness i).topBlockers =
      (((allBlockers i).filter fun b =>
          decide (MIN_GAP_THRESHOLD < b.gap)).insertionSort gapGE).take 4 := rfl

/-- The weighted sum lies in [0, 99.5] on the documented domain. -/
lemma weightedSum_bounds (i : Inputs) (h : InDomain i) :
    0 ≤ (100 - i.variance) * 0.2 + (100 - i.exceptionRate) * 0.2 +
        i.dataQuality * 0.2 + i.systemAccess * 0.15 +
        (100 - i.complianceSensitivity) * 0.15 +
        volumeSubscore i.processVolume * 0.1 ∧
      (100 - i.variance) * 0.2 + (100 - i.exceptionRate) * 0.2 +
        i.dataQuality * 0.2 + i.systemAccess * 0.15 +
        (100 - i.complianceSensitivity) * 0.15 +
        volumeSubscore i.processVolume * 0.1 ≤ 99.5 :=
  by
  obtain ⟨h1, h2, h3, h4, h5, h6, h7, h8, h9, h10, h11⟩ := h
  have hv0 := volumeSubscore_nonneg i.processVolume
  have hv95 := volumeSubscore_le_95 i.processVolume
  constructor <;> nlinarith

instance : IsTotal Blocker gapGE := ⟨fun a b => le_total b.gap a.gap⟩

instance : IsTrans Blocker gapGE := ⟨fun _ _ _ hab hbc => le_trans hbc hab⟩

/-- The blocker array written out entry by entry. -/
lemma allBlockers_explicit (i : Inputs) :
    allBlockers i =
      [{ factor := "stableProcess"
         reason := (BLOCKER_HINTS "stableProcess").reason
         hintText := (BLOCKER_HINTS "stableProcess").hintText
         gap := 100 - (100 - i.variance), subscore := 100 - i.variance },
       { factor := "lowExceptions"
         reason := (BLOCKER_HINTS "lowExceptions").reason
         hintText := (BLOCKER_HINTS "lowExceptions").hintText
         gap := 100 - (100 - i.exceptionRate), subscore := 100 - i.exceptionRate },
       { factor := "dataQuality"
         reason := (BLOCKER_HINTS "dataQuality").reason
         hintText := (BLOCKER_HINTS "dataQuality").hintText
         gap := 100 - i.dataQuality, subscore := i.dataQuality },
       { factor := "systemAccess"
         reason := (BLOCKER_HINTS "systemAccess").reason
         hintText := (BLOCKER_HINTS "systemAccess").hintText
         gap := 100 - i.systemAccess, subscore := i.systemAccess },
       { factor := "lowComplianceRisk"
         reason := (BLOCKER_HINTS "lowComplianceRisk").reason
         hintText := (BLOCKER_HINTS "lowComplianceRisk").hintText
         gap := 100 - (100 - i.complianceSensitivity)
         subscore := 100 - i.complianceSensitivity },
       { factor := "volumePotential"
         reason := (BLOCKER_HINTS "volumePotential").reason
         hintText := (BLOCKER_HINTS "volumePotential").hintText
         gap := 95 - volumeSubscore i.processVolume
         subscore := volumeSubscore i.processVolume }] := rfl

/-- Projecting each blocker to its (factor, gap) pair turns the blocker array
into the spec-side gap table. -/
lemma map_factor_gap_allBlockers (i : Inputs) :
    (allBlockers i).map (fun b => (b.factor, b.gap)) =
      specFactors.map fun f => (f, specGap i f) := rfl

/-- Every published blocker passed the strict threshold filter. -/
lemma topBlockers_gap_gt {i : Inputs} {b : Blocker}
    (hb : b ∈ (calculateReadiness i).topBlockers) : MIN_GAP_THRESHOLD < b.gap :=
  by
  rw [topBlockers_eq] at hb
  have h1 : b ∈ ((allBlockers i).filter fun b =>
      decide (MIN_GAP_THRESHOLD < b.gap)).insertionSort gapGE :=
    (List.take_sublist 4 _).subset hb
  have h2 := (List.mem_insertionSort gapGE).1 h1
  rw [List.mem_filter] at h2
  exact of_decide_eq_true h2.2

/-- Every published blocker is one of the six constructed blocker records. -/
lemma topBlockers_subset {i : Inputs} {b : Blocker}
    (hb : b ∈ (calculateReadiness i).topBlockers) : b ∈ allBlockers i :=
  by
  rw [topBlockers_eq] at hb
  have h1 : b ∈ ((allBlockers i).filter fun b =>
      decide (MIN_GAP_THRESHOLD < b.gap)).insertionSort gapGE :=
    (List.take_sublist 4 _).subset hb
  exact List.mem_of_mem_filter ((List.mem_insertionSort gapGE).1 h1)

/-- The published blocker list is sorted by descending gap. -/
lemma topBlockers_sorted (i : Inputs) :
    ((calculateReadiness i).topBlockers).Sorted gapGE :=
  by
  rw [topBlockers_eq]
  exact (List.sorted_insertionSort gapGE _).sublist (List.take_sublist 4 _)

lemma volumeSubscore_zero : volumeSubscore 0 = 0 :=
  by
  unfold volumeSubscore
  rw [if_pos le_rfl]

/-- The output's band is the spec-side threshold lookup applied to the score. -/
lemma band_eq (i : Inputs) :
    (calculateReadiness i).band =
      (specBandNarrative (calculateReadiness i).readinessScore).1 := rfl

/-- The output's narrative is the spec-side threshold lookup applied to the score. -/
lemma narrative_eq (i : Inputs) :
    (calculateReadiness i).narrative =
      (specBandNarrative (calculateReadiness i).readinessScore).2 := rfl

/-- The published blocker list has at most four entries. -/
lemma topBlockers_length_le (i : Inputs) :
    ((calculateReadiness i).topBlockers).length ≤ 4 :=
  by
  rw [topBlockers_eq, List.length_take]
  exact min_le_left _ _

/-! Claim theorems. -/

/-- C7: the six weight constants used by the aggregation step sum to
exactly 1.0. -/
theorem claim_C7_weights_sum_one :
    WEIGHTS.stableProcess + WEIGHTS.lowExceptions + WEIGHTS.dataQuality +
      WEIGHTS.systemAccess + WEIGHTS.lowComplianceRisk +
      WEIGHTS.volumePotential = 1 :=
  by norm_num [WEIGHTS]

/-- C3: the volume subscore is 0 for non-positive volume, otherwise
`clamp (log₁₀ (volume + 1) * 31.5) 0 95`; volume 100 yields about 63 (±1),
volume 1000 about 94.5 (±1), and any volume ≥ 10000 yields exactly 95. -/
theorem claim_C3_volume_transform (v : ℝ) :
    (v ≤ 0 → volumeSubscore v = 0) ∧
    (0 < v → volumeSubscore v = clamp (Real.logb 10 (v + 1) * 31.5) 0 95) ∧
    |volumeSubscore 100 - 63| ≤ 1 ∧
    |volumeSubscore 1000 - 94.5| ≤ 1 ∧
    (10000 ≤ v → volumeSubscore v = 95) :=
  by
  refine ⟨fun h => ?_, fun h => ?_, volumeSubscore_hundred,
    volumeSubscore_thousand, fun h => volumeSubscore_saturated h⟩
  · unfold volumeSubscore
    rw [if_pos h]
  · unfold volumeSubscore
    rw [if_neg (not_le.2 h)]

theorem claim_C3_volume_transform_witness :
    ((0:ℝ) ≤ 0 ∧ volumeSubscore 0 = 0) ∧
      ((10000:ℝ) ≤ 20000 ∧ volumeSubscore 20000 = 95) :=
  ⟨⟨le_rfl, (claim_C3_volume_transform 0).1 le_rfl⟩,
   ⟨by norm_num, (claim_C3_volume_transform 20000).2.2.2.2 (by norm_num)⟩⟩

/-- C8: `calculateReadiness` is a deterministic (pure) total function:
identical input records give identical outputs.  Totality and freedom from
failure hold by construction of the embedding: the translation of the
function needed no `Option`/`Except`, since every operation it performs
(arithmetic, table lookup at the six keys, filter/sort/take) is total. -/
theorem claim_C8_deterministic (i j : Inputs) (h : i = j) :
    calculateReadiness i = calculateReadiness j := by rw [h]

theorem claim_C8_deterministic_witness :
    (⟨1000, 20, 10, 70, 60, 30⟩ : Inputs) = ⟨1000, 20, 10, 70, 60, 30⟩ ∧
      calculateReadiness ⟨1000, 20, 10, 70, 60, 30⟩ =
        calculateReadiness ⟨1000, 20, 10, 70, 60, 30⟩ :=
  ⟨rfl, claim_C8_deterministic ⟨1000, 20, 10, 70, 60, 30⟩ ⟨1000, 20, 10, 70, 60, 30⟩ rfl⟩

/-- C4: band and narrative are determined solely by the rounded score through
the fixed thresholds (≥75 Green, ≥50 Yellow, else Red), each band carrying its
single fixed narrative; in particular score 75 gives Green, 74 and 50 give
Yellow, 49 gives Red. -/
theorem claim_C4_band_thresholds (i : Inputs) :
    ((calculateReadiness i).band, (calculateReadiness i).narrative) =
      specBandNarrative (calculateReadiness i).readinessScore ∧
    specBandNarrative 75 = ("Green", narrativeGreen) ∧
    specBandNarrative 74 = ("Yellow", narrativeYellow) ∧
    specBandNarrative 50 = ("Yellow", narrativeYellow) ∧
    specBandNarrative 49 = ("Red", narrativeRed) :=
  by
  refine ⟨Prod.mk.eta, ?_, ?_, ?_, ?_⟩ <;> norm_num [specBandNarrative]

/-- C2: on the documented domain, the readiness score is the weighted sum of
the six subscores under the fixed weights, rounded half-up, and it is an
integer between 0 and 100. -/
theorem claim_C2_weighted_score (i : Inputs) (h : InDomain i) :
    (calculateReadiness i).readinessScore = specScore i ∧
    0 ≤ (calculateReadiness i).readinessScore ∧
    (calculateReadiness i).readinessScore ≤ 100 :=
  by
  obtain ⟨hlo, hhi⟩ := weightedSum_bounds i h
  refine ⟨?_, ?_, ?_⟩
  · rw [readinessScore_eq]
    unfold specScore jsRound roundHalfUp
    congr 1
    simp +decide [specFactors, specSubscore, specWeight]
    ring
  · rw [readinessScore_eq]
    exact jsRound_nonneg hlo
  · rw [readinessScore_eq]
    exact jsRound_le_100 hhi

theorem claim_C2_weighted_score_witness :
    InDomain ⟨1000, 20, 10, 70, 60, 30⟩ ∧
      ((calculateReadiness ⟨1000, 20, 10, 70, 60, 30⟩).readinessScore =
          specScore ⟨1000, 20, 10, 70, 60, 30⟩ ∧
        0 ≤ (calculateReadiness ⟨1000, 20, 10, 70, 60, 30⟩).readinessScore ∧
        (calculateReadiness ⟨1000, 20, 10, 70, 60, 30⟩).readinessScore ≤ 100) :=
  ⟨by constructor <;> norm_num,
   claim_C2_weighted_score ⟨1000, 20, 10, 70, 60, 30⟩ (by constructor <;> norm_num)⟩

/-- C1: the blocker list is exactly the pipeline the spec describes: per-factor
gap (max attainable subscore minus subscore, with maximum 95 for
`volumePotential` and 100 otherwise), keep only gaps strictly above 15, order
by gap descending, truncate to the first 4; consequently every published
blocker has gap > 15 (a gap of exactly 15 is excluded), the list is sorted by
descending gap and has length at most 4. -/
theorem claim_C1_blocker_pipeline (i : Inputs) :
    ((calculateReadiness i).topBlockers).map (fun b => (b.factor, b.gap)) =
      specTopBlockerView i ∧
    (∀ b ∈ (calculateReadiness i).topBlockers, 15 < b.gap) ∧
    ((calculateReadiness i).topBlockers).Sorted gapGE ∧
    ((calculateReadiness i).topBlockers).length ≤ 4 :=
  by
  refine ⟨?_, fun b hb => topBlockers_gap_gt hb, topBlockers_sorted i,
    topBlockers_length_le i⟩
  rw [topBlockers_eq]
  unfold specTopBlockerView
  rw [List.map_take]
  congr 1
  rw [List.map_insertionSort gapGE (fun a b => b.2 ≤ a.2)
    (fun b => (b.factor, b.gap)) _ (fun a _ b _ => Iff.rfl)]
  congr 1
  rw [← map_factor_gap_allBlockers i, List.filter_map]
  rfl

theorem claim_C1_blocker_pipeline_witness :
    ((calculateReadiness ⟨50, 80, 70, 30, 20, 90⟩).topBlockers).map
        (fun b => (b.factor, b.gap)) =
      specTopBlockerView ⟨50, 80, 70, 30, 20, 90⟩ :=
  (claim_C1_blocker_pipeline ⟨50, 80, 70, 30, 20, 90⟩).1

theorem claim_C4_band_thresholds_witness :
    specBandNarrative 75 = ("Green", narrativeGreen) :=
  (claim_C4_band_thresholds ⟨5000, 10, 5, 95, 90, 10⟩).2.1

/-- C5: with every field at its best value and a volume large enough to
saturate the volume subscore, the output is score 100, band Green, and an
empty blocker list. -/
theorem claim_C5_best_inputs (v : ℝ) (h : 10000 ≤ v) :
    (calculateReadiness ⟨v, 0, 0, 100, 100, 0⟩).readinessScore = 100 ∧
    (calculateReadiness ⟨v, 0, 0, 100, 100, 0⟩).band = "Green" ∧
    (calculateReadiness ⟨v, 0, 0, 100, 100, 0⟩).topBlockers = [] :=
  by
  have hsat := volumeSubscore_saturated h
  have hscore : (calculateReadiness ⟨v, 0, 0, 100, 100, 0⟩).readinessScore = 100 :=
    by
    rw [readinessScore_eq]
    norm_num [hsat, jsRound]
  refine ⟨hscore, ?_, ?_⟩
  · rw [band_eq, hscore]
    rfl
  · rw [topBlockers_eq, allBlockers_explicit]
    norm_num [hsat, MIN_GAP_THRESHOLD, List.filter_cons, List.filter_nil,
      decide_eq_true_eq, List.insertionSort, List.take_nil]

theorem claim_C5_best_inputs_witness :
    (10000 : ℝ) ≤ 10000 ∧
      ((calculateReadiness ⟨10000, 0, 0, 100, 100, 0⟩).readinessScore = 100 ∧
        (calculateReadiness ⟨10000, 0, 0, 100, 100, 0⟩).band = "Green" ∧
        (calculateReadiness ⟨10000, 0, 0, 100, 100, 0⟩).topBlockers = []) :=
  ⟨le_rfl, claim_C5_best_inputs 10000 le_rfl⟩

/-- C6: with every field at its worst value, the output is score 0, band Red,
and a non-empty blocker list of length at most 4 sorted by descending gap. -/
theorem claim_C6_worst_inputs :
    (calculateReadiness ⟨0, 100, 100, 0, 0, 100⟩).readinessScore = 0 ∧
    (calculateReadiness ⟨0, 100, 100, 0, 0, 100⟩).band = "Red" ∧
    (calculateReadiness ⟨0, 100, 100, 0, 0, 100⟩).topBlockers ≠ [] ∧
    ((calculateReadiness ⟨0, 100, 100, 0, 0, 100⟩).topBlockers).length ≤ 4 ∧
    ((calculateReadiness ⟨0, 100, 100, 0, 0, 100⟩).topBlockers).Sorted gapGE :=
  by
  have hscore : (calculateReadiness ⟨0, 100, 100, 0, 0, 100⟩).readinessScore = 0 :=
    by
    rw [readinessScore_eq]
    norm_num [volumeSubscore_zero, jsRound]
  have hlen : ((calculateReadiness ⟨0, 100, 100, 0, 0, 100⟩).topBlockers).length = 4 :=
    by
    rw [topBlockers_eq, List.length_take, List.length_insertionSort,
      allBlockers_explicit]
    norm_num [volumeSubscore_zero, MIN_GAP_THRESHOLD, List.filter_cons,
      List.filter_nil, decide_eq_true_eq]
  refine ⟨hscore, ?_, ?_, topBlockers_length_le _, topBlockers_sorted _⟩
  · rw [band_eq, hscore]
    rfl
  · intro hnil
    rw [hnil] at hlen
    exact absurd hlen (by norm_num)

/-- C9: improving any single input in its favorable direction (larger volume,
data quality or system access; smaller variance, exception rate or compliance
sensitivity) while holding the other five fixed never decreases the score. -/
theorem claim_C9_single_input_monotone (i : Inputs) (a b : ℝ) (hab : a ≤ b) :
    (calculateReadiness { i with processVolume := a }).readinessScore ≤
      (calculateReadiness { i with processVolume := b }).readinessScore ∧
    (calculateReadiness { i with variance := b }).readinessScore ≤
      (calculateReadiness { i with variance := a }).readinessScore ∧
    (calculateReadiness { i with exceptionRate := b }).readinessScore ≤
      (calculateReadiness { i with exceptionRate := a }).readinessScore ∧
    (calculateReadiness { i with dataQuality := a }).readinessScore ≤
      (calculateReadiness { i with dataQuality := b }).readinessScore ∧
    (calculateReadiness { i with systemAccess := a }).readinessScore ≤
      (calculateReadiness { i with systemAccess := b }).readinessScore ∧
    (calculateReadiness { i with complianceSensitivity := b }).readinessScore ≤
      (calculateReadiness { i with complianceSensitivity := a }).readinessScore :=
  by
  have hvol := volumeSubscore_mono hab
  refine ⟨?_, ?_, ?_, ?_, ?_, ?_⟩ <;>
    · rw [readinessScore_eq, readinessScore_eq]
      apply jsRound_mono
      dsimp only
      nlinarith

theorem claim_C9_single_input_monotone_witness :
    (0 : ℝ) ≤ 1 ∧
      (calculateReadiness { (⟨0, 0, 0, 0, 0, 0⟩ : Inputs) with
          processVolume := 0 }).readinessScore ≤
        (calculateReadiness { (⟨0, 0, 0, 0, 0, 0⟩ : Inputs) with
          processVolume := 1 }).readinessScore :=
  ⟨by norm_num, (claim_C9_single_input_monotone ⟨0, 0, 0, 0, 0, 0⟩ 0 1 (by norm_num)).1⟩

/-- C10: every published blocker is internally consistent: its factor is one
of the six factor names, no factor occurs twice, its subscore is the subscore
derived for that factor from the inputs, its gap is the factor's maximum
attainable subscore minus that subscore, and its reason and hint are the fixed
table entries for that factor. -/
theorem claim_C10_blocker_consistency (i : Inputs) :
    (∀ b ∈ (calculateReadiness i).topBlockers,
      b.factor ∈ specFactors ∧
      b.subscore = specSubscore i b.factor ∧
      b.gap = specMaxSubscore b.factor - b.subscore ∧
      b.reason = (BLOCKER_HINTS b.factor).reason ∧
      b.hintText = (BLOCKER_HINTS b.factor).hintText) ∧
    (((calculateReadiness i).topBlockers).map Blocker.factor).Nodup :=
  by
  constructor
  · intro b hb
    have hmem := topBlockers_subset hb
    rw [allBlockers_explicit] at hmem
    simp only [List.mem_cons, List.not_mem_nil, or_false] at hmem
    rcases hmem with rfl | rfl | rfl | rfl | rfl | rfl <;>
      exact ⟨by simp [specFactors], rfl, rfl, rfl, rfl⟩
  · rw [topBlockers_eq]
    have h0 : ((allBlockers i).map Blocker.factor).Nodup :=
      by
      have hmf : (allBlockers i).map Blocker.factor = specFactors := rfl
      rw [hmf]
      decide
    have h1 : (((allBlockers i).filter fun b =>
        decide (MIN_GAP_THRESHOLD < b.gap)).map Blocker.factor).Nodup :=
      h0.sublist ((List.filter_sublist _).map _)
    have h2 : ((((allBlockers i).filter fun b =>
        decide (MIN_GAP_THRESHOLD < b.gap)).insertionSort gapGE).map
          Blocker.factor).Nodup :=
      (((List.perm_insertionSort gapGE _).map Blocker.factor).nodup_iff).2 h1
    exact h2.sublist ((List.take_sublist 4 _).map _)

theorem claim_C10_blocker_consistency_witness :
    (((calculateReadiness ⟨0, 100, 100, 0, 0, 100⟩).topBlockers).map
      Blocker.factor).Nodup :=
  (claim_C10_blocker_consistency ⟨0, 100, 100, 0, 0, 100⟩).2

end ARS
